import Mathlib

/-!
Verification development for the spreadsheet-to-blog pipeline
(`pipeline/utils/helpers.py`, `pipeline/services/google_sheet.py`,
`pipeline/services/content_generator.py`).

Python strings are modelled as lists of Unicode code points (`List Nat`).
`str.strip()` is modelled over the ASCII whitespace code points that occur
in the data of interest, and `str.lower()` over the ASCII letter range;
none of the inputs considered here contain characters where Python's
Unicode-aware versions would differ.
-/

namespace Pipeline

/-- A Python string: its list of Unicode code points. -/
abbrev PyStr := List Nat

/-- Injection of a Lean string literal into the model. -/
def pyOfString (s : String) : PyStr := s.data.map Char.toNat

/-- Whitespace test used by `str.strip()` (space, tab, LF, VT, FF, CR). -/
def isSpaceCode (c : Nat) : Bool :=
  c == 32 || c == 9 || c == 10 || c == 11 || c == 12 || c == 13

/-- `str.lower()` on one code point (ASCII `A`–`Z` mapped to `a`–`z`). -/
def lowerCode (c : Nat) : Nat := if 65 ≤ c ∧ c ≤ 90 then c + 32 else c

/-- `s.lower()`. -/
def pyLower (s : PyStr) : PyStr := s.map lowerCode

/-- `s.strip()`: drop leading and trailing whitespace. -/
def pyStrip (s : PyStr) : PyStr :=
  ((s.dropWhile isSpaceCode).reverse.dropWhile isSpaceCode).reverse

/-- `s.rstrip("/")`: drop trailing slash code points (47). -/
def rstripSlash (s : PyStr) : PyStr :=
  (s.reverse.dropWhile (fun c => c == 47)).reverse

/-- `s.startswith(p)`. -/
def startsWithL : PyStr → PyStr → Bool
  | _, [] => true
  | [], _ :: _ => false
  | c :: s, d :: p => c == d && startsWithL s p

/-- `s.split("/")`: always non-empty; empty string splits to `[[]]`. -/
def splitSlash : PyStr → List PyStr
  | [] => [[]]
  | c :: rest =>
    match splitSlash rest with
    | [] => [[]]
    | h :: t => if c = 47 then [] :: h :: t else (c :: h) :: t

/-- `l[-1]` on the (always non-empty) result of `split`. -/
def lastOrEmpty (l : List PyStr) : PyStr := l.getLastD []

def httpSchemeStr : PyStr := pyOfString (r"http://")
def httpsSchemeStr : PyStr := pyOfString (r"https://")

/-- `urlparse(raw).path` for a `raw` that starts with `http://` or
`https://`: drop the scheme and the `//`, drop the netloc (up to the first
of `/`, `?`, `#`), then cut at the first `#` (fragment) and `?` (query). -/
def urlparsePath (raw : PyStr) : PyStr :=
  let afterScheme := if startsWithL raw httpsSchemeStr then raw.drop 6 else raw.drop 5
  let afterNetloc :=
    (afterScheme.drop 2).dropWhile (fun c => !(c == 47 || c == 63 || c == 35))
  (afterNetloc.takeWhile (fun c => c != 35)).takeWhile (fun c => c != 63)

/-- `helpers.sanitize_status`: `(value or "").strip().lower()`. -/
def sanitize_status (value : PyStr) : PyStr := pyLower (pyStrip value)

/-- `helpers.extract_slug`: derive a slug from a raw slug or a full URL.
Mirrors the source: empty in, empty out; for a value starting with
`http://` or `https://` take the last segment of the URL path after
`rstrip("/")`; otherwise keep the stripped raw value; finally
`.strip().lower()` the candidate. -/
def extract_slug (value : PyStr) : PyStr :=
  if value = [] then []
  else if pyStrip value = [] then []
  else if startsWithL (pyStrip value) httpSchemeStr
          || startsWithL (pyStrip value) httpsSchemeStr then
    pyLower (pyStrip (lastOrEmpty (splitSlash (rstripSlash (urlparsePath (pyStrip value))))))
  else
    pyLower (pyStrip (pyStrip value))

/-! ## `google_sheet.py`: schema resolution, row parsing, exact duplicate stage -/

/-- Last-wins lookup in an insertion-ordered association list; models
`dict.get` for a dict built left to right (later keys overwrite). -/
def dictLookup {α : Type} (m : List (PyStr × α)) (k : PyStr) : Option α :=
  (m.reverse.find? (fun p => p.1 == k)).map (fun p => p.2)

def HEADER_TITULO : PyStr := pyOfString (r"título")
def HEADER_KEYWORD : PyStr := pyOfString (r"keyword principal")
def HEADER_DESCRIPCION : PyStr := pyOfString (r"descripción para el gpt")
def HEADER_CATEGORIA : PyStr := pyOfString (r"categoría")
def HEADER_EJECUTAR : PyStr := pyOfString (r"ejecutar?")
def HEADER_SLUG : PyStr := pyOfString (r"slug")

/-- `GoogleSheetClient.HEADER_ALIASES`. The Python values are `set`s whose
iteration order is unspecified; they are listed here in source order, and
the theorems below only use headers in which at most one alias of each
canonical field occurs, so the chosen order is immaterial. -/
def HEADER_ALIASES : List (PyStr × List PyStr) :=
  [(HEADER_TITULO, [pyOfString (r"título"), pyOfString (r"titulo")]),
   (HEADER_KEYWORD, [pyOfString (r"keyword principal"), pyOfString (r"keyword_principal")]),
   (HEADER_DESCRIPCION,
     [pyOfString (r"descripción para el gpt"), pyOfString (r"descripcion para el gpt"),
      pyOfString (r"descripcion"), pyOfString (r"descripción")]),
   (HEADER_CATEGORIA, [pyOfString (r"categoría"), pyOfString (r"categoria")]),
   (HEADER_EJECUTAR,
     [pyOfString (r"ejecutar?"), pyOfString (r"ejecutar"),
      pyOfString (r"status"), pyOfString (r"estado")]),
   (HEADER_SLUG, [pyOfString (r"slug"), pyOfString (r"url")])]

/-- The dict comprehension
`{value.strip().lower(): idx for idx, value in enumerate(header_row)}`,
kept as an ordered association list (lookups are last-wins). -/
def normalizedHeader (header_row : List PyStr) : List (PyStr × Nat) :=
  header_row.enum.map (fun p => (pyLower (pyStrip p.2), p.1))

/-- `GoogleSheetClient._resolve_header_indices`: for each canonical field
take the first alias present in the normalized header. -/
def resolveHeaderIndices (normalized : List (PyStr × Nat)) : List (PyStr × Nat) :=
  HEADER_ALIASES.filterMap (fun ca =>
    (ca.2.findSome? (fun al => dictLookup normalized (pyLower (pyStrip al)))).map
      (fun idx => (ca.1, idx)))

/-- `GoogleSheetClient._safe_get`: empty when the field is unmapped or the
row is shorter than the mapped index, else the stripped cell. -/
def safeGet (row : List PyStr) (header_index : List (PyStr × Nat)) (header_name : PyStr) :
    PyStr :=
  match dictLookup header_index header_name with
  | none => []
  | some idx => if row.length ≤ idx then [] else pyStrip (row.getD idx [])

/-- `GoogleSheetClient._get_value_by_normalized`: same safe indexing over
the raw normalized-header map. -/
def getValueByNormalized (row : List PyStr) (normalized_map : List (PyStr × Nat))
    (key : PyStr) : PyStr :=
  match dictLookup normalized_map key with
  | none => []
  | some idx => if row.length ≤ idx then [] else pyStrip (row.getD idx [])

/-- `GoogleSheetClient._derive_url`: keep the stripped value only when it
starts (case-insensitively) with `http://` or `https://`. -/
def deriveUrl (raw_value : PyStr) : PyStr :=
  if raw_value = [] then []
  else if startsWithL (pyLower (pyStrip raw_value)) httpSchemeStr
          || startsWithL (pyLower (pyStrip raw_value)) httpsSchemeStr then
    pyStrip raw_value
  else []

/-- One parsed spreadsheet row, as built by `_parse_rows`. -/
structure ParsedRow where
  row_number : Nat
  titulo : PyStr
  keyword : PyStr
  descripcion : PyStr
  categoria : PyStr
  ejecutar : PyStr
  slug_raw : PyStr
  slug : PyStr
  url : PyStr
deriving DecidableEq, Repr

/-- `GoogleSheetClient._parse_rows` (its pure part: header bookkeeping is
state recording only). The first raw row is the header; data rows get
1-based sheet positions starting at 2. -/
def parseRows (raw_rows : List (List PyStr)) : List ParsedRow :=
  match raw_rows with
  | [] => []
  | header_row :: dataRows =>
    let normalized := normalizedHeader header_row
    let resolved := resolveHeaderIndices normalized
    dataRows.enum.map (fun p =>
      let slug_raw := safeGet p.2 resolved HEADER_SLUG
      let url_value := getValueByNormalized p.2 normalized (pyOfString (r"url"))
      let first_url := deriveUrl url_value
      { row_number := p.1 + 2
        titulo := safeGet p.2 resolved HEADER_TITULO
        keyword := safeGet p.2 resolved HEADER_KEYWORD
        descripcion := safeGet p.2 resolved HEADER_DESCRIPCION
        categoria := safeGet p.2 resolved HEADER_CATEGORIA
        ejecutar := safeGet p.2 resolved HEADER_EJECUTAR
        slug_raw := slug_raw
        slug := extract_slug slug_raw
        url := if first_url ≠ [] then first_url else deriveUrl slug_raw })

/-- `GoogleSheetClient.get_rows_to_process`, as a function of the fetched
sheet values (`none` models a failed read, which `_fetch_sheet_values`
turns into no data): parse, then keep rows whose sanitized execution flag
is exactly `"si"`. -/
def getRowsToProcess (fetched : Option (List (List PyStr))) : List ParsedRow :=
  match fetched with
  | none => []
  | some raw_rows =>
    if raw_rows = [] then []
    else (parseRows raw_rows).filter
      (fun row => sanitize_status row.ejecutar == pyOfString (r"si"))

/-- One record of the Identity Index as consumed by `is_duplicate` and
`_select_relevant_index`; a key absent from the underlying dict reads as
the empty string, so fields are plain strings. -/
structure IndexRecord where
  titulo : PyStr
  keyword : PyStr
  categoria : PyStr
  slug : PyStr
  url : PyStr
deriving DecidableEq, Repr

/-- The per-record test inside `GoogleSheetClient.is_duplicate`: slug
match (both non-empty), else title match (record side non-empty), else
keyword match (both non-empty). -/
def recordMatches (title_normalized keyword_normalized slug_normalized : PyStr)
    (record : IndexRecord) : Bool :=
  let recorded_title := pyLower (pyStrip record.titulo)
  let recorded_keyword := pyLower (pyStrip record.keyword)
  let recorded_slug := if record.slug ≠ [] then record.slug else extract_slug record.url
  (slug_normalized ≠ [] && recorded_slug ≠ [] && recorded_slug == slug_normalized)
    || (recorded_title ≠ [] && recorded_title == title_normalized)
    || (keyword_normalized ≠ [] && recorded_keyword ≠ []
        && recorded_keyword == keyword_normalized)

/-- `GoogleSheetClient.is_duplicate`: normalize the candidate once, then
scan the index until the first matching record. -/
def is_duplicate (title keyword slug : PyStr) (index_records : List IndexRecord) : Bool :=
  index_records.any
    (recordMatches (pyLower (pyStrip title)) (pyLower (pyStrip keyword)) (extract_slug slug))

/-- `GoogleSheetClient._column_letter` inner loop
(`while current > 0: current, remainder = divmod(current - 1, 26)`),
written with an explicit fuel so that it reduces by structural recursion;
`current` strictly decreases on every iteration, so any fuel of at least
the initial `current` (as passed below) runs the loop to completion. -/
def columnLetterAux (fuel current : Nat) : PyStr :=
  match fuel, current with
  | _, 0 => []
  | 0, _ + 1 => []
  | f + 1, c + 1 => columnLetterAux f (c / 26) ++ [65 + c % 26]

/-- `GoogleSheetClient._column_letter`: negative indices clamp to `"A"`,
otherwise base-26 bijective numeration; `result or "A"` at the end. -/
def columnLetter (index : Int) : PyStr :=
  if index < 0 then [65]
  else
    let result := columnLetterAux (index.toNat + 1) (index.toNat + 1)
    if result = [] then [65] else result

/-- The cell targeted by `GoogleSheetClient.mark_status`: the resolved
execution-flag column (default index 4 when unresolved) at the given row. -/
def markStatusTarget (main_header_indices : List (PyStr × Nat)) (row_number : Nat) :
    PyStr × Nat :=
  (columnLetter ((dictLookup main_header_indices HEADER_EJECUTAR).getD 4 : Nat), row_number)

/-- `GoogleSheetClient._batched_updates`: chunks of `size`; a zero size
yields nothing (the first `islice` is empty and the loop breaks). -/
def batchedUpdates {α : Type} : List α → Nat → List (List α)
  | _, 0 => []
  | [], _ + 1 => []
  | a :: l, n + 1 => (a :: l).take (n + 1) :: batchedUpdates ((a :: l).drop (n + 1)) (n + 1)
termination_by l _ => l.length
decreasing_by simp [List.length_drop]; omega

/-- The update payload built by `GoogleSheetClient.batch_mark_status`:
per 50-row chunk, one `(column letter, row, status)` entry per update,
every entry using the resolved (or default 4) execution-flag column. -/
def batchMarkStatusData (main_header_indices : List (PyStr × Nat))
    (updates : List (Nat × PyStr)) : List (List (PyStr × Nat × PyStr)) :=
  (batchedUpdates updates 50).map (fun chunk =>
    chunk.map (fun rs =>
      (columnLetter ((dictLookup main_header_indices HEADER_EJECUTAR).getD 4 : Nat),
       rs.1, rs.2)))

/-! ## `content_generator.py`: semantic duplicate stage and payload validation -/

/-- The candidate row as read by `is_semantic_duplicate` /
`_select_relevant_index` (dict keys `titulo`, `keyword`, `descripcion`,
`categoria`, `slug`, `url`; a missing key reads as the empty string). -/
structure Candidate where
  titulo : PyStr
  keyword : PyStr
  descripcion : PyStr
  categoria : PyStr
  slug : PyStr
  url : PyStr
deriving DecidableEq, Repr

/-- One record of the capped set sent to the external query (the
projection built at the end of `_select_relevant_index`). -/
structure ProjectedRecord where
  title : PyStr
  keyword : PyStr
  category : PyStr
  slug : PyStr
  url : PyStr
deriving DecidableEq, Repr

/-- Python `needle in hay` on strings: contiguous substring test. -/
def containsSub (needle hay : PyStr) : Bool := decide (needle <:+: hay)

/-- The relevance filter inside `ContentGenerator._select_relevant_index`,
before the empty-filter fallback: keep records whose keyword contains the
candidate's normalized keyword as a substring, or whose category equals
the candidate's normalized category (both sides non-empty). -/
def relevanceFilter (candidate : Candidate) (index_records : List IndexRecord) :
    List IndexRecord :=
  let keyword := pyLower (pyStrip candidate.keyword)
  let category := pyLower (pyStrip candidate.categoria)
  index_records.filter (fun record =>
    let record_keyword := pyLower (pyStrip record.keyword)
    let record_category := pyLower (pyStrip record.categoria)
    (keyword ≠ [] && record_keyword ≠ [] && containsSub keyword record_keyword)
      || (category ≠ [] && record_category ≠ [] && category == record_category))

/-- `ContentGenerator._select_relevant_index`: relevance filter, fallback
to the full index when the filter is empty, cap to the first `limit`
records (the call site uses the default 25), project the fields. -/
def selectRelevantIndex (candidate : Candidate) (index_records : List IndexRecord)
    (limit : Nat) : List ProjectedRecord :=
  let filtered := relevanceFilter candidate index_records
  let filtered2 := if filtered = [] then index_records else filtered
  (filtered2.take limit).map (fun rec =>
    { title := rec.titulo, keyword := rec.keyword, category := rec.categoria,
      slug := rec.slug, url := rec.url })

/-- A Python value as produced by `json.loads` (JSON numbers restricted to
integers; no claim here involves fractional values). -/
inductive PyVal where
  | none
  | bool (b : Bool)
  | int (n : Int)
  | str (s : PyStr)
  | list (items : List PyVal)
  | dict (entries : List (PyStr × PyVal))

/-- Python truthiness, `bool(v)`. -/
def truthy : PyVal → Bool
  | .none => false
  | .bool b => b
  | .int n => n != 0
  | .str s => !s.isEmpty
  | .list items => !items.isEmpty
  | .dict entries => !entries.isEmpty

/-- `d.get(k)` on a parsed JSON object: `None` when the key is absent. -/
def pyDictGet (entries : List (PyStr × PyVal)) (k : PyStr) : PyVal :=
  (dictLookup entries k).getD .none

/-- Outcome of the external duplicate-check exchange, as seen by the code
after `self.client.responses.create` / `_extract_text` / `json.loads`:
the call raised; the response carried no extractable text (so
`_extract_text` raises `ValueError`); the text was not valid JSON; or it
parsed to a Python value. -/
inductive SemanticOutcome where
  | callError
  | extractError
  | parseError (raw_text : PyStr)
  | parsed (value : PyVal)

/-- `ContentGenerator.is_semantic_duplicate` as a function of the
candidate, the index and the outcome of the single external exchange.
`Except` models an exception escaping the method (`ValueError` from
`_extract_text`, or `AttributeError` from calling `.get` on a non-dict
parse result); `.ok` is the value returned to the caller. -/
def isSemanticDuplicate (candidate : Candidate) (index_records : List IndexRecord)
    (outcome : SemanticOutcome) : Except PyStr Bool :=
  if selectRelevantIndex candidate index_records 25 = [] then .ok false
  else
    match outcome with
    | .callError => .ok false
    | .extractError =>
      .error (pyOfString (r"No se pudo extraer texto de la respuesta del modelo."))
    | .parseError _ => .ok false
    | .parsed value =>
      match value with
      | .dict entries => .ok (truthy (pyDictGet entries (pyOfString (r"duplicate"))))
      | _ => .error (pyOfString (r"AttributeError"))

/-- The distinct `ValueError`s raised by `ContentGenerator._validate_payload`. -/
inductive ValidationError where
  | missingFields (missing : List PyStr)
  | notEnoughFaqs
  | noImagePrompts
deriving DecidableEq, Repr

/-- `required_fields` of `ContentGenerator._validate_payload`. -/
def REQUIRED_FIELDS : List PyStr :=
  [pyOfString (r"title"), pyOfString (r"meta_description"), pyOfString (r"h1"),
   pyOfString (r"content_html"), pyOfString (r"faqs"), pyOfString (r"image_prompts")]

/-- `ContentGenerator._validate_payload`: error on any missing required
field; error unless `faqs` is a list of at least 5 items; error unless
`image_prompts` is a non-empty list. No check inspects the items. -/
def validatePayload (payload : List (PyStr × PyVal)) : Except ValidationError Unit :=
  let missing := REQUIRED_FIELDS.filter (fun f => (dictLookup payload f).isNone)
  if missing ≠ [] then .error (.missingFields missing)
  else
    match pyDictGet payload (pyOfString (r"faqs")) with
    | .list faqs =>
      if faqs.length < 5 then .error .notEnoughFaqs
      else
        match pyDictGet payload (pyOfString (r"image_prompts")) with
        | .list prompts => if prompts.isEmpty then .error .noImagePrompts else .ok ()
        | _ => .error .noImagePrompts
    | _ => .error .notEnoughFaqs

/-! ## Concrete scenario data used by the claim theorems -/

/-- A string that is fixed by both `strip` and `lower` (every
`extract_slug` output has this shape). -/
def IsNormal (w : PyStr) : Prop := pyStrip w = w ∧ pyLower w = w

/-- The spec's row-parsing scenario sheet: header plus one data row. -/
def mainSheetScenario : List (List PyStr) :=
  [[pyOfString (r"Título"), pyOfString (r"Keyword Principal"), pyOfString (r"Categoría"),
    pyOfString (r"Ejecutar?"), pyOfString (r"Slug")],
   [pyOfString (r"Mi Post"), pyOfString (r"clave x"), pyOfString (r"Tecnología"),
    pyOfString (r"si"), pyOfString (r"/mi-post")]]

/-- Sheet with one row flagged `"SI "` and one flagged `"No"`, for the
execution-flag filtering scenario. -/
def flagsSheetScenario : List (List PyStr) :=
  [[pyOfString (r"Título"), pyOfString (r"Keyword Principal"), pyOfString (r"Categoría"),
    pyOfString (r"Ejecutar?"), pyOfString (r"Slug")],
   [pyOfString (r"Post A"), pyOfString (r"kw a"), pyOfString (r"Cat"),
    pyOfString (r"SI "), pyOfString (r"post-a")],
   [pyOfString (r"Post B"), pyOfString (r"kw b"), pyOfString (r"Cat"),
    pyOfString (r"No"), pyOfString (r"post-b")]]

/-- Candidate with keyword `"zapatos rojos"` for the relevance-filter
scenario. -/
def zapatosCandidate : Candidate :=
  { titulo := pyOfString (r"Guia"), keyword := pyOfString (r"zapatos rojos"),
    descripcion := [], categoria := pyOfString (r"moda"), slug := [], url := [] }

/-- Index record with keyword `"zapatos"` and a category different from
the candidate's. -/
def zapatosRecord : IndexRecord :=
  { titulo := pyOfString (r"Otro post"), keyword := pyOfString (r"zapatos"),
    categoria := pyOfString (r"calzado"), slug := pyOfString (r"otro-post"), url := [] }

/-- A generative-model payload whose `faqs` are five bare strings without
`question`/`answer` structure, with all required fields present. -/
def faqsWithoutQAPayload : List (PyStr × PyVal) :=
  [(pyOfString (r"title"), .str (pyOfString (r"t"))),
   (pyOfString (r"meta_description"), .str (pyOfString (r"m"))),
   (pyOfString (r"h1"), .str (pyOfString (r"h"))),
   (pyOfString (r"content_html"), .str (pyOfString (r"c"))),
   (pyOfString (r"faqs"),
    .list [.str (pyOfString (r"f1")), .str (pyOfString (r"f2")), .str (pyOfString (r"f3")),
           .str (pyOfString (r"f4")), .str (pyOfString (r"f5"))]),
   (pyOfString (r"image_prompts"), .list [.str (pyOfString (r"p1"))])]

/-! ## Supporting lemmas about the string primitives -/

theorem lowerCode_idem (c : Nat) : lowerCode (lowerCode c) = lowerCode c := by
  by_cases h : 65 ≤ c ∧ c ≤ 90
  · simp only [lowerCode, if_pos h]
    rw [if_neg (by omega)]
  · simp only [lowerCode, if_neg h]

theorem isSpaceCode_false_of_ge {n : Nat} (h : 33 ≤ n) : isSpaceCode n = false := by
  simp only [isSpaceCode, Bool.or_eq_false_iff, beq_eq_false_iff_ne, ne_eq]
  omega

theorem isSpaceCode_lowerCode (c : Nat) : isSpaceCode (lowerCode c) = isSpaceCode c := by
  by_cases h : 65 ≤ c ∧ c ≤ 90
  · simp only [lowerCode, if_pos h]
    rw [isSpaceCode_false_of_ge (by omega), isSpaceCode_false_of_ge (by omega)]
  · simp only [lowerCode, if_neg h]

theorem pyLower_idem (s : PyStr) : pyLower (pyLower s) = pyLower s := by
  induction s with
  | nil => rfl
  | cons c t ih =>
    simp only [pyLower, List.map_cons] at ih ⊢
    rw [lowerCode_idem, ih]

theorem dropWhile_idem {α : Type} (p : α → Bool) (l : List α) :
    (l.dropWhile p).dropWhile p = l.dropWhile p := by
  induction l with
  | nil => rfl
  | cons a t ih =>
    by_cases h : p a
    · simp [List.dropWhile_cons, h, ih]
    · simp [List.dropWhile_cons, h]

theorem dropWhile_append_self {α : Type} {p : α → Bool} {t w : List α}
    (h : (t ++ w).dropWhile p = t ++ w) : t.dropWhile p = t := by
  cases t with
  | nil => rfl
  | cons a t' =>
    have hpa : p a = false := by
      cases hp : p a
      · rfl
      · rw [List.cons_append, List.dropWhile_cons_of_pos hp] at h
        have hle := (List.dropWhile_sublist (l := t' ++ w) p).length_le
        rw [h] at hle
        simp only [List.length_cons] at hle
        omega
    rw [List.dropWhile_cons_of_neg (by simp [hpa])]

theorem pyStrip_pyLower (s : PyStr) : pyStrip (pyLower s) = pyLower (pyStrip s) := by
  have hpf : (isSpaceCode ∘ lowerCode) = isSpaceCode := funext isSpaceCode_lowerCode
  simp only [pyStrip, pyLower]
  rw [List.dropWhile_map, hpf, ← List.map_reverse, List.dropWhile_map, hpf,
    ← List.map_reverse]

theorem pyStrip_idem (s : PyStr) : pyStrip (pyStrip s) = pyStrip s := by
  have hd : pyStrip s
      = ((s.dropWhile isSpaceCode).reverse.dropWhile isSpaceCode).reverse := rfl
  have hsplit : s.dropWhile isSpaceCode
      = pyStrip s ++ ((s.dropWhile isSpaceCode).reverse.takeWhile isSpaceCode).reverse := by
    conv_lhs =>
      rw [← List.reverse_reverse (s.dropWhile isSpaceCode),
        ← List.takeWhile_append_dropWhile (p := isSpaceCode)
          (l := (s.dropWhile isSpaceCode).reverse)]
    rw [List.reverse_append, hd]
  have h1 : (pyStrip s).dropWhile isSpaceCode = pyStrip s :=
    dropWhile_append_self (by rw [← hsplit]; exact dropWhile_idem _ _)
  show (((pyStrip s).dropWhile isSpaceCode).reverse.dropWhile isSpaceCode).reverse = pyStrip s
  rw [h1, hd, List.reverse_reverse, dropWhile_idem, ← hd]

theorem mem_of_mem_pyStrip {a : Nat} {s : PyStr} (h : a ∈ pyStrip s) : a ∈ s := by
  simp only [pyStrip, List.mem_reverse] at h
  have h1 := (List.dropWhile_sublist (l := (s.dropWhile isSpaceCode).reverse) isSpaceCode).subset h
  rw [List.mem_reverse] at h1
  exact (List.dropWhile_sublist (l := s) isSpaceCode).subset h1

theorem mem_of_mem_pyLower {a : Nat} {s : PyStr} (hne : a = 47) (h : a ∈ pyLower s) :
    a ∈ s := by
  simp only [pyLower, List.mem_map] at h
  obtain ⟨c, hc, hlc⟩ := h
  have : c = a := by subst hne; unfold lowerCode at hlc; split at hlc <;> omega
  exact this ▸ hc

theorem splitSlash_ne_nil (s : PyStr) : splitSlash s ≠ [] := by
  cases s with
  | nil => simp [splitSlash]
  | cons c rest =>
    cases h : splitSlash rest with
    | nil => simp [splitSlash, h]
    | cons hd tl =>
      simp only [splitSlash, h]
      split <;> simp

theorem not_mem_lastOrEmpty_splitSlash (s : PyStr) :
    (47 : Nat) ∉ lastOrEmpty (splitSlash s) := by
  induction s with
  | nil => simp [splitSlash, lastOrEmpty]
  | cons c rest ih =>
    cases h : splitSlash rest with
    | nil => exact absurd h (splitSlash_ne_nil rest)
    | cons hd tl =>
      simp only [splitSlash, h]
      rw [h] at ih
      by_cases hc : c = 47
      · rw [if_pos hc]
        simpa [lastOrEmpty, List.getLastD_cons] using ih
      · rw [if_neg hc]
        cases tl with
        | nil =>
          simp only [lastOrEmpty, List.getLastD_cons, List.getLastD_nil] at ih ⊢
          intro hmem
          rcases List.mem_cons.mp hmem with h1 | h2
          · exact hc h1.symm
          · exact ih h2
        | cons x tl' =>
          simpa [lastOrEmpty, List.getLastD_cons] using ih

theorem mem_of_startsWithL {s p : PyStr} (h : startsWithL s p = true) {a : Nat}
    (ha : a ∈ p) : a ∈ s := by
  induction p generalizing s with
  | nil => simp at ha
  | cons d p' ih =>
    cases s with
    | nil => simp [startsWithL] at h
    | cons c s' =>
      simp only [startsWithL, Bool.and_eq_true, beq_iff_eq] at h
      rcases List.mem_cons.mp ha with h1 | h2
      · rw [h1, ← h.1]
        exact List.mem_cons_self c s'
      · exact List.mem_cons_of_mem c (ih h.2 h2)

theorem isNormal_strip_lower (x : PyStr) : IsNormal (pyLower (pyStrip x)) := by
  constructor
  · rw [pyStrip_pyLower, pyStrip_idem]
  · exact pyLower_idem _

theorem isNormal_nil : IsNormal ([] : PyStr) := ⟨rfl, rfl⟩

theorem extract_slug_isNormal (v : PyStr) : IsNormal (extract_slug v) := by
  unfold extract_slug
  repeat' split
  · exact isNormal_nil
  · exact isNormal_nil
  · exact isNormal_strip_lower _
  · exact isNormal_strip_lower _

theorem extract_slug_fix {w : PyStr} (hw : IsNormal w) :
    extract_slug (extract_slug w) = extract_slug w := by
  by_cases h0 : w = []
  · subst h0; rfl
  have hs : pyStrip w = w := hw.1
  by_cases hurl : (startsWithL w httpSchemeStr || startsWithL w httpsSchemeStr) = true
  · have e1 : extract_slug w
        = pyLower (pyStrip (lastOrEmpty (splitSlash (rstripSlash (urlparsePath w))))) := by
      unfold extract_slug
      rw [hs, if_neg h0, if_neg h0, if_pos hurl]
    have hnos : (47 : Nat) ∉ lastOrEmpty (splitSlash (rstripSlash (urlparsePath w))) :=
      not_mem_lastOrEmpty_splitSlash _
    have hyn : IsNormal (extract_slug w) := by rw [e1]; exact isNormal_strip_lower _
    have hynos : (47 : Nat) ∉ extract_slug w := by
      rw [e1]
      intro hmem
      exact hnos (mem_of_mem_pyStrip (mem_of_mem_pyLower rfl hmem))
    by_cases hy0 : extract_slug w = []
    · rw [hy0]; rfl
    have hns1 : startsWithL (extract_slug w) httpSchemeStr = false := by
      cases hb : startsWithL (extract_slug w) httpSchemeStr
      · rfl
      · exact absurd (mem_of_startsWithL hb (show (47 : Nat) ∈ httpSchemeStr by decide)) hynos
    have hns2 : startsWithL (extract_slug w) httpsSchemeStr = false := by
      cases hb : startsWithL (extract_slug w) httpsSchemeStr
      · rfl
      · exact absurd (mem_of_startsWithL hb (show (47 : Nat) ∈ httpsSchemeStr by decide)) hynos
    conv_lhs => rw [extract_slug]
    rw [hyn.1, if_neg hy0, if_neg hy0, hns1, hns2]
    simp only [Bool.or_false, Bool.false_eq_true, if_false]
    rw [hyn.1]
    exact hyn.2
  · have e1 : extract_slug w = w := by
      unfold extract_slug
      rw [hs, if_neg h0, if_neg h0, if_neg hurl, hs, hw.2]
    rw [e1]
    exact e1

/-! ## Claim theorems -/

/-- Claim C3 (counterexample): `extract_slug` is not idempotent as
claimed. At `"HTTP://example.com/foo"` the first application only
lower-cases (the scheme check is case-sensitive, so the URL branch is not
taken), and the second application then strips the URL down to `"foo"`. -/
theorem extract_slug_not_idempotent :
    extract_slug (extract_slug (pyOfString (r"HTTP://example.com/foo")))
      ≠ extract_slug (pyOfString (r"HTTP://example.com/foo")) := by decide

/-- Claim C3 (amended): `extract_slug` is idempotent from the second
application on — for every string `v`,
`extract_slug (extract_slug (extract_slug v)) = extract_slug (extract_slug v)`;
single-application idempotence fails on mixed-case schemes. -/
theorem extract_slug_composed_idempotent (v : PyStr) :
    extract_slug (extract_slug (extract_slug v)) = extract_slug (extract_slug v) :=
  extract_slug_fix (extract_slug_isNormal v)

/-- Claim C1 (counterexample): with an index record whose slug is
`"mi-post"` and a candidate slug `"/blog/mi-post/"`, `is_duplicate`
returns `false` when titles and keywords do not match, because
`extract_slug` keeps a bare path unchanged (`"/blog/mi-post/"`), so the
slug comparison fails. -/
theorem is_duplicate_bare_path_no_match :
    is_duplicate (pyOfString (r"otro titulo")) (pyOfString (r"otra keyword"))
      (pyOfString (r"/blog/mi-post/"))
      [{ titulo := pyOfString (r"x"), keyword := pyOfString (r"y"),
         categoria := [], slug := pyOfString (r"mi-post"), url := [] }] = false := by
  decide

/-- Claim C1 (amended): slug-based exact matching does hold when the
candidate slug is a full URL: for every candidate title/keyword and every
record title/keyword/category/url, `is_duplicate` with candidate slug
`"https://example.com/blog/mi-post/"` against a record whose slug field
is `"mi-post"` returns `true` (the last path segment of the URL is
extracted and compared against the record's slug field, which is read
as-is). -/
theorem is_duplicate_url_slug_match (title keyword rt rk rc ru : PyStr) :
    is_duplicate title keyword (pyOfString (r"https://example.com/blog/mi-post/"))
      [{ titulo := rt, keyword := rk, categoria := rc,
         slug := pyOfString (r"mi-post"), url := ru }] = true := by
  have e : extract_slug (pyOfString (r"https://example.com/blog/mi-post/"))
      = pyOfString (r"mi-post") := by decide
  have hne : (pyOfString (r"mi-post") : PyStr) ≠ [] := by decide
  simp [is_duplicate, recordMatches, e, hne]

/-- Claim C2 (counterexample): parsing the scenario sheet does not give
slug `"mi-post"`: the raw cell `"/mi-post"` is not a URL, so
`extract_slug` keeps the leading slash. -/
theorem parseRows_scenario_slug_differs :
    (parseRows mainSheetScenario).map ParsedRow.slug ≠ [pyOfString (r"mi-post")] := by
  decide

/-- Claim C2 (amended): parsing the scenario sheet yields exactly one
Logical Row, with `slug = "/mi-post"` (leading slash kept), execution
flag `"si"` and empty derived url; all other fields as in the data row,
and the unmapped description field empty. -/
theorem parseRows_scenario :
    parseRows mainSheetScenario
      = [{ row_number := 2, titulo := pyOfString (r"Mi Post"),
           keyword := pyOfString (r"clave x"), descripcion := [],
           categoria := pyOfString (r"Tecnología"), ejecutar := pyOfString (r"si"),
           slug_raw := pyOfString (r"/mi-post"), slug := pyOfString (r"/mi-post"),
           url := [] }] := by
  decide

/-- Claim C4 (counterexample): the keyword-substring rule does not fire
for candidate keyword `"zapatos rojos"` against record keyword
`"zapatos"`: the rule requires the candidate keyword to occur inside the
record keyword, and the categories differ, so the relevance filter is
empty. -/
theorem relevanceFilter_excludes_zapatos :
    relevanceFilter zapatosCandidate [zapatosRecord] = [] := by decide

/-- Claim C4 (amended): the record is still passed to the semantic
stage's query, but only through the empty-filter fallback to the full
index, not through the keyword-substring rule; the substring rule fires
in the opposite direction (candidate keyword `"zapatos"` contained in
record keyword `"zapatos rojos"`). -/
theorem selectRelevantIndex_zapatos_fallback :
    relevanceFilter zapatosCandidate [zapatosRecord] = []
    ∧ selectRelevantIndex zapatosCandidate [zapatosRecord] 25
        = [{ title := pyOfString (r"Otro post"), keyword := pyOfString (r"zapatos"),
             category := pyOfString (r"calzado"), slug := pyOfString (r"otro-post"),
             url := [] }]
    ∧ relevanceFilter
        { zapatosCandidate with keyword := pyOfString (r"zapatos") }
        [{ zapatosRecord with keyword := pyOfString (r"zapatos rojos") }]
        = [{ zapatosRecord with keyword := pyOfString (r"zapatos rojos") }] := by
  refine ⟨by decide, by decide, by decide⟩

/-- Claim C5: the semantic duplicate check fails open — if the external
call raises, or the response text is not valid JSON, the method returns
`false` to its caller (no exception escapes in those two outcomes), for
every candidate, index and response text. -/
theorem isSemanticDuplicate_fail_open (c : Candidate) (idxr : List IndexRecord)
    (raw_text : PyStr) :
    isSemanticDuplicate c idxr .callError = Except.ok false
    ∧ isSemanticDuplicate c idxr (.parseError raw_text) = Except.ok false := by
  constructor <;> (unfold isSemanticDuplicate; split <;> rfl)

/-- Claim C6: safe cell lookup is total — for every row, header map and
field name, if the field is unmapped or every mapped index is out of the
row's range, both `_safe_get` and `_get_value_by_normalized` return the
empty string. -/
theorem safe_lookup_total (row : List PyStr) (m : List (PyStr × Nat)) (name : PyStr)
    (h : ∀ i, dictLookup m name = some i → row.length ≤ i) :
    safeGet row m name = [] ∧ getValueByNormalized row m name = [] := by
  constructor
  · unfold safeGet
    cases hl : dictLookup m name with
    | none => rfl
    | some i =>
      show (if row.length ≤ i then [] else pyStrip (row.getD i [])) = []
      rw [if_pos (h i hl)]
  · unfold getValueByNormalized
    cases hl : dictLookup m name with
    | none => rfl
    | some i =>
      show (if row.length ≤ i then [] else pyStrip (row.getD i [])) = []
      rw [if_pos (h i hl)]

/-- Witness for claim C6: a one-cell row with a slug column mapped to
index 5 reads as empty through both lookups. -/
theorem safe_lookup_total_witness :
    safeGet [pyOfString (r"a")] [(HEADER_SLUG, 5)] HEADER_SLUG = []
    ∧ getValueByNormalized [pyOfString (r"a")] [(HEADER_SLUG, 5)] HEADER_SLUG = [] :=
  safe_lookup_total _ _ _ (by
    intro i hi
    rw [(by decide : dictLookup [(HEADER_SLUG, 5)] HEADER_SLUG = some 5)] at hi
    injection hi with h5
    rw [← h5]
    decide)

/-- Claim C7: `get_rows_to_process` returns exactly the parsed rows whose
execution flag sanitizes (trim + lowercase) to `"si"`; a flag `"SI "` is
included and `"No"` is excluded, as the two-row scenario sheet shows. -/
theorem getRowsToProcess_spec :
    (∀ (fetched : Option (List (List PyStr))) (row : ParsedRow),
        row ∈ getRowsToProcess fetched
          ↔ ∃ raw_rows, fetched = some raw_rows ∧ row ∈ parseRows raw_rows
              ∧ sanitize_status row.ejecutar = pyOfString (r"si"))
    ∧ sanitize_status (pyOfString (r"SI ")) = pyOfString (r"si")
    ∧ sanitize_status (pyOfString (r"No")) ≠ pyOfString (r"si")
    ∧ (getRowsToProcess (some flagsSheetScenario)).map ParsedRow.titulo
        = [pyOfString (r"Post A")] := by
  refine ⟨?_, by decide, by decide, by decide⟩
  intro fetched row
  cases fetched with
  | none => simp [getRowsToProcess]
  | some raws =>
    by_cases hr : raws = []
    · subst hr
      simp [getRowsToProcess, parseRows]
    · simp [getRowsToProcess, hr, List.mem_filter, beq_iff_eq]

/-- Claim C8 (counterexample): a payload whose `faqs` are five bare
strings (no `question`/`answer` structure) passes validation — the code
only counts the items, so the claimed per-item requirement is not
enforced. -/
theorem validatePayload_accepts_unstructured_faqs :
    validatePayload faqsWithoutQAPayload = Except.ok () := by rfl

/-- Claim C8 (amended): validation fails exactly when a required field is
missing, or `faqs` is not a list of at least 5 items (their structure is
not inspected), or `image_prompts` is not a non-empty list. -/
theorem validatePayload_ok_iff (payload : List (PyStr × PyVal)) :
    validatePayload payload = Except.ok ()
      ↔ (∀ f ∈ REQUIRED_FIELDS, (dictLookup payload f).isSome = true)
        ∧ (∃ faqs, pyDictGet payload (pyOfString (r"faqs")) = PyVal.list faqs
            ∧ 5 ≤ faqs.length)
        ∧ (∃ prompts, pyDictGet payload (pyOfString (r"image_prompts")) = PyVal.list prompts
            ∧ prompts ≠ []) := by
  unfold validatePayload
  by_cases hm : REQUIRED_FIELDS.filter (fun f => (dictLookup payload f).isNone) = []
  · rw [if_neg (by simp [hm])]
    have hall : ∀ f ∈ REQUIRED_FIELDS, (dictLookup payload f).isSome = true := by
      intro f hf
      have h1 := List.filter_eq_nil_iff.mp hm f hf
      cases h2 : dictLookup payload f with
      | none => exact absurd (by simp [h2]) h1
      | some v => simp [h2]
    split
    · rename_i faqs hfq
      by_cases h5 : faqs.length < 5
      · rw [if_pos h5]
        constructor
        · intro h; exact absurd h (by simp)
        · rintro ⟨-, ⟨faqs', hfa, hlen⟩, -⟩
          rw [hfq] at hfa
          injection hfa with he
          subst he
          omega
      · rw [if_neg h5]
        split
        · rename_i prompts hip
          by_cases hpe : prompts = []
          · rw [if_pos (by simp [hpe])]
            constructor
            · intro h; exact absurd h (by simp)
            · rintro ⟨-, -, ⟨p', hp, hpne⟩⟩
              rw [hip] at hp
              injection hp with he
              exact (hpne (by rw [← he, hpe])).elim
          · rw [if_neg (by simp [hpe])]
            constructor
            · intro _
              exact ⟨hall, ⟨faqs, hfq, by omega⟩, ⟨prompts, hip, hpe⟩⟩
            · intro _; rfl
        · rename_i hnotlist
          constructor
          · intro h; exact absurd h (by simp)
          · rintro ⟨-, -, ⟨p', hp, -⟩⟩
            exact (hnotlist p' hp).elim
    · rename_i hnotlist
      constructor
      · intro h; exact absurd h (by simp)
      · rintro ⟨-, ⟨faqs', hfa, -⟩, -⟩
        exact (hnotlist faqs' hfa).elim
  · rw [if_pos hm]
    constructor
    · intro h; exact absurd h (by simp)
    · rintro ⟨hall, -, -⟩
      refine absurd ?_ hm
      rw [List.filter_eq_nil_iff]
      intro f hf
      have h1 := hall f hf
      cases h2 : dictLookup payload f with
      | none => rw [h2] at h1; simp at h1
      | some v => simp [h2]

/-- Concatenating the chunks produced by `_batched_updates` gives back
the original update list (for any positive chunk size). -/
theorem batchedUpdates_flatten {α : Type} :
    ∀ (l : List α) (n : Nat), n ≠ 0 → (batchedUpdates l n).flatten = l
  | _, 0, h => absurd rfl h
  | [], _ + 1, _ => by simp [batchedUpdates]
  | a :: l, n + 1, h => by
    simp only [batchedUpdates, List.flatten_cons]
    rw [batchedUpdates_flatten ((a :: l).drop (n + 1)) (n + 1) h]
    exact List.take_append_drop _ _
termination_by l _ _ => l.length
decreasing_by simp [List.length_drop]; omega

/-- Claim C9: when the execution-flag column was never resolved (its key
is absent from the header-index map), `mark_status` still targets column
`"E"` (zero-based index 4) of the given row, and every entry of every
chunk written by `batch_mark_status` targets column `"E"`; no update is
dropped (the chunks flatten back to the full update list, each update
paired with column `"E"`). -/
theorem mark_status_default_column (m : List (PyStr × Nat)) (row_number : Nat)
    (updates : List (Nat × PyStr)) (h : dictLookup m HEADER_EJECUTAR = none) :
    markStatusTarget m row_number = (pyOfString (r"E"), row_number)
    ∧ (batchMarkStatusData m updates).flatten
        = updates.map (fun rs => (pyOfString (r"E"), rs.1, rs.2)) := by
  have hc : columnLetter ((dictLookup m HEADER_EJECUTAR).getD 4 : Nat)
      = pyOfString (r"E") := by
    rw [h]
    decide
  constructor
  · unfold markStatusTarget
    rw [hc]
  · unfold batchMarkStatusData
    rw [hc, ← List.map_flatten, batchedUpdates_flatten updates 50 (by decide)]

/-- Witness for claim C9: empty header-index map, row 2, and two queued
status updates; the single chunk targets column `"E"` for both rows. -/
theorem mark_status_default_column_witness :
    markStatusTarget ([] : List (PyStr × Nat)) 2 = (pyOfString (r"E"), 2)
    ∧ (batchMarkStatusData ([] : List (PyStr × Nat))
        [(2, pyOfString (r"hecho")), (3, pyOfString (r"duplicado"))]).flatten
        = [(2, pyOfString (r"hecho")), (3, pyOfString (r"duplicado"))].map
            (fun rs => (pyOfString (r"E"), rs.1, rs.2)) :=
  mark_status_default_column ([] : List (PyStr × Nat)) 2
    [(2, pyOfString (r"hecho")), (3, pyOfString (r"duplicado"))] (by rfl)

/-- Claim C10: when the semantic-check response parses as a JSON object,
the method returns the Python truthiness of the object's `duplicate`
field, for every such object; in particular, a present `duplicate` field
holding any non-empty string (including `"false"`) or any non-zero
integer makes `is_semantic_duplicate` return `true`, and a missing
`duplicate` field makes it return `false`. -/
theorem isSemanticDuplicate_truthiness (c : Candidate) (idxr : List IndexRecord)
    (entries : List (PyStr × PyVal)) (s : PyStr) (n : Int)
    (hrel : selectRelevantIndex c idxr 25 ≠ [])
    (hs : s ≠ []) (hn : n ≠ 0) :
    isSemanticDuplicate c idxr (.parsed (.dict entries))
        = Except.ok (truthy (pyDictGet entries (pyOfString (r"duplicate"))))
    ∧ isSemanticDuplicate c idxr
        (.parsed (.dict [(pyOfString (r"duplicate"), PyVal.str s)])) = Except.ok true
    ∧ isSemanticDuplicate c idxr
        (.parsed (.dict [(pyOfString (r"duplicate"),
          PyVal.str (pyOfString (r"false")))])) = Except.ok true
    ∧ isSemanticDuplicate c idxr
        (.parsed (.dict [(pyOfString (r"duplicate"), PyVal.int n)])) = Except.ok true
    ∧ (dictLookup entries (pyOfString (r"duplicate")) = none →
        isSemanticDuplicate c idxr (.parsed (.dict entries)) = Except.ok false) := by
  refine ⟨?_, ?_, ?_, ?_, ?_⟩
  · unfold isSemanticDuplicate
    rw [if_neg hrel]
  · unfold isSemanticDuplicate
    rw [if_neg hrel]
    show Except.ok (truthy (pyDictGet
        [(pyOfString (r"duplicate"), PyVal.str s)] (pyOfString (r"duplicate"))))
        = Except.ok true
    have e : pyDictGet [(pyOfString (r"duplicate"), PyVal.str s)]
        (pyOfString (r"duplicate")) = PyVal.str s := rfl
    rw [e]
    simp [truthy, hs]
  · unfold isSemanticDuplicate
    rw [if_neg hrel]
    rfl
  · unfold isSemanticDuplicate
    rw [if_neg hrel]
    show Except.ok (truthy (pyDictGet
        [(pyOfString (r"duplicate"), PyVal.int n)] (pyOfString (r"duplicate"))))
        = Except.ok true
    have e : pyDictGet [(pyOfString (r"duplicate"), PyVal.int n)]
        (pyOfString (r"duplicate")) = PyVal.int n := rfl
    rw [e]
    simp [truthy, hn]
  · intro hmiss
    unfold isSemanticDuplicate
    rw [if_neg hrel]
    show Except.ok (truthy ((dictLookup entries (pyOfString (r"duplicate"))).getD PyVal.none))
        = Except.ok false
    rw [hmiss]
    rfl

/-- Witness for claim C10: concrete candidate and one-record index; the
method returns `true` on parsed objects whose `duplicate` field is the
string `"x"`, the string `"false"`, or the integer 2, and `false` on a
parsed object without a `duplicate` key. -/
theorem isSemanticDuplicate_truthiness_witness :
    isSemanticDuplicate zapatosCandidate [zapatosRecord]
        (.parsed (.dict [(pyOfString (r"reason"), PyVal.str (pyOfString (r"nada")))]))
        = Except.ok (truthy (pyDictGet
            [(pyOfString (r"reason"), PyVal.str (pyOfString (r"nada")))]
            (pyOfString (r"duplicate"))))
    ∧ isSemanticDuplicate zapatosCandidate [zapatosRecord]
        (.parsed (.dict [(pyOfString (r"duplicate"),
          PyVal.str (pyOfString (r"x")))])) = Except.ok true
    ∧ isSemanticDuplicate zapatosCandidate [zapatosRecord]
        (.parsed (.dict [(pyOfString (r"duplicate"),
          PyVal.str (pyOfString (r"false")))])) = Except.ok true
    ∧ isSemanticDuplicate zapatosCandidate [zapatosRecord]
        (.parsed (.dict [(pyOfString (r"duplicate"), PyVal.int 2)])) = Except.ok true
    ∧ (dictLookup [(pyOfString (r"reason"), PyVal.str (pyOfString (r"nada")))]
          (pyOfString (r"duplicate")) = none →
        isSemanticDuplicate zapatosCandidate [zapatosRecord]
          (.parsed (.dict [(pyOfString (r"reason"), PyVal.str (pyOfString (r"nada")))]))
          = Except.ok false) :=
  isSemanticDuplicate_truthiness zapatosCandidate [zapatosRecord]
    [(pyOfString (r"reason"), PyVal.str (pyOfString (r"nada")))]
    (pyOfString (r"x")) 2 (by decide) (by decide) (by decide)

end Pipeline
